import Mathlib

/-!
Shallow embedding of the deterministic orchestration layer of the
AI-Home-Repair-Triage-Platform backend (src/backend/agent.py and
src/backend/main.py), together with theorems settling the frozen claims
about it.

The external multimodal inference capability ("oracle") is modelled as an
explicit input of type `Except String String`: either the raw text the
oracle returned, or the message of the exception its invocation raised.
All deterministic control logic around it is translated directly from the
Python source.
-/

/--
JSON values as produced by Python `json.loads`.  Numbers are restricted to
the integer fragment (every numeric literal appearing in the oracle
contracts and claims of this repository is an integer; float-bearing
outputs are outside the model and are treated as parse failures).
-/
inductive Json where
  | null : Json
  | bool : Bool → Json
  | num : Int → Json
  | str : String → Json
  | arr : List Json → Json
  | obj : List (String × Json) → Json
deriving Repr, Inhabited

/-- The whitespace set stripped by Python `str.strip()`. -/
def isPySpace (c : Char) : Bool :=
  c = ' ' || c = '\t' || c = '\n' || c = '\r' || c = '\x0b' || c = '\x0c'

/-- The whitespace accepted between tokens by Python `json.loads`. -/
def isJsonWs (c : Char) : Bool :=
  c = ' ' || c = '\t' || c = '\n' || c = '\r'

/-- Python `str.strip()` on a list of characters. -/
def pyStripL (cs : List Char) : List Char :=
  ((cs.dropWhile isPySpace).reverse.dropWhile isPySpace).reverse

/-- Python `str.strip()`. -/
def pyStrip (s : String) : String :=
  String.mk (pyStripL s.data)

/--
The Markdown code-fence stripping performed identically at the top of
`_parse_json_response` (agent.py lines 861-870) and `_parse_json_array`
(lines 879-888): strip, drop a leading ```json, drop a leading ```,
drop a trailing ```, strip again.
-/
def stripFences (cs : List Char) : List Char :=
  let t0 := pyStripL cs
  let t1 := if List.isPrefixOf "```json".data t0 then t0.drop 7 else t0
  let t2 := if List.isPrefixOf "```".data t1 then t1.drop 3 else t1
  let t3 := if List.isSuffixOf "```".data t2 then t2.take (t2.length - 3) else t2
  pyStripL t3

/-- Decimal digits to a natural number. -/
def digitsToNat (ds : List Char) : Nat :=
  ds.foldl (fun a c => a * 10 + (c.toNat - 48)) 0

/--
Characters of a JSON string literal after the opening quote, handling the
single-character escapes; returns the decoded characters and the input
remaining after the closing quote.
-/
def parseStrChars : List Char → Option (List Char × List Char)
  | [] => none
  | '"' :: rest => some ([], rest)
  | '\\' :: e :: rest =>
      let dec : Option Char :=
        if e = '"' then some '"'
        else if e = '\\' then some '\\'
        else if e = '/' then some '/'
        else if e = 'n' then some '\n'
        else if e = 't' then some '\t'
        else if e = 'r' then some '\r'
        else if e = 'b' then some '\x08'
        else if e = 'f' then some '\x0c'
        else none
      match dec with
      | some d =>
          match parseStrChars rest with
          | some (cs, r) => some (d :: cs, r)
          | none => none
      | none => none
  | c :: rest =>
      match parseStrChars rest with
      | some (cs, r) => some (c :: cs, r)
      | none => none

/-- An integer JSON number starting at the given characters (sign handled by caller). -/
def parseDigits (cs : List Char) : Option (Nat × List Char) :=
  let ds := cs.takeWhile Char.isDigit
  let r := cs.dropWhile Char.isDigit
  if ds.isEmpty then none
  else if ds.length > 1 && ds.headI = '0' then none
  else
    match r with
    | '.' :: _ => none
    | 'e' :: _ => none
    | 'E' :: _ => none
    | _ => some (digitsToNat ds, r)

mutual

/-- Recursive-descent JSON value parser (fuelled; fuel bounds nesting and element count). -/
def parseVal : Nat → List Char → Option (Json × List Char)
  | 0, _ => none
  | Nat.succ fuel, cs =>
    match cs.dropWhile isJsonWs with
    | 'n' :: 'u' :: 'l' :: 'l' :: rest => some (Json.null, rest)
    | 't' :: 'r' :: 'u' :: 'e' :: rest => some (Json.bool true, rest)
    | 'f' :: 'a' :: 'l' :: 's' :: 'e' :: rest => some (Json.bool false, rest)
    | '"' :: rest =>
        match parseStrChars rest with
        | some (sc, r) => some (Json.str (String.mk sc), r)
        | none => none
    | '[' :: rest =>
        match rest.dropWhile isJsonWs with
        | ']' :: r => some (Json.arr [], r)
        | _ =>
          match parseElems fuel rest with
          | some (xs, r) => some (Json.arr xs, r)
          | none => none
    | '\x7b' :: rest =>
        match rest.dropWhile isJsonWs with
        | '\x7d' :: r => some (Json.obj [], r)
        | _ =>
          match parseMembers fuel rest with
          | some (kvs, r) => some (Json.obj kvs, r)
          | none => none
    | '-' :: rest =>
        match parseDigits rest with
        | some (n, r) => some (Json.num (-(Int.ofNat n)), r)
        | none => none
    | c :: rest =>
        if c.isDigit then
          match parseDigits (c :: rest) with
          | some (n, r) => some (Json.num (Int.ofNat n), r)
          | none => none
        else none
    | [] => none

/-- Comma-separated array elements up to the closing bracket. -/
def parseElems : Nat → List Char → Option (List Json × List Char)
  | 0, _ => none
  | Nat.succ fuel, cs =>
    match parseVal fuel cs with
    | none => none
    | some (v, r) =>
      match r.dropWhile isJsonWs with
      | ',' :: r2 =>
          match parseElems fuel r2 with
          | some (xs, r3) => some (v :: xs, r3)
          | none => none
      | ']' :: r2 => some ([v], r2)
      | _ => none

/-- Comma-separated object members up to the closing brace. -/
def parseMembers : Nat → List Char → Option (List (String × Json) × List Char)
  | 0, _ => none
  | Nat.succ fuel, cs =>
    match cs.dropWhile isJsonWs with
    | '"' :: rest =>
      match parseStrChars rest with
      | none => none
      | some (kc, r) =>
        match r.dropWhile isJsonWs with
        | ':' :: r2 =>
          match parseVal fuel r2 with
          | none => none
          | some (v, r3) =>
            match r3.dropWhile isJsonWs with
            | ',' :: r4 =>
                match parseMembers fuel r4 with
                | some (kvs, r5) => some ((String.mk kc, v) :: kvs, r5)
                | none => none
            | '\x7d' :: r4 => some ([(String.mk kc, v)], r4)
            | _ => none
        | _ => none
    | _ => none

end

/-- Python `json.loads` on a character list: one JSON value, then only whitespace. -/
def json_loadsL (cs : List Char) : Option Json :=
  match parseVal (2 * cs.length + 16) cs with
  | some (v, rest) => if (rest.dropWhile isJsonWs).isEmpty then some v else none
  | none => none

/-- Python `json.loads` on a string. -/
def json_loads (s : String) : Option Json :=
  json_loadsL s.data

/--
`MaintenanceAgent._parse_json_response` (agent.py lines 859-875): strip
code fences, parse as JSON; on `json.JSONDecodeError` fall back to a
dictionary holding the stripped text, never raising.
-/
def parse_json_response (response_text : String) : Json :=
  let t := stripFences response_text.data
  match json_loadsL t with
  | some v => v
  | none => Json.obj [("text", Json.str (String.mk t))]

/--
The outermost `[...]` span location of `_parse_json_array` (agent.py
lines 890-894): `text[text.find('[') .. text.rfind(']')]` when both
brackets exist in that order, otherwise the text unchanged.
-/
def extractArraySpan (cs : List Char) : List Char :=
  match List.findIdx? (fun c => c = '[') cs,
        List.findIdx? (fun c => c = ']') cs.reverse with
  | some s, some rj =>
      let e := cs.length - 1 - rj
      if s < e then (cs.drop s).take (e + 1 - s) else cs
  | _, _ => cs

/--
`MaintenanceAgent._parse_json_array` (agent.py lines 877-902): strip code
fences, slice out the outermost bracketed span, parse; return the parsed
list, or `[]` when the parse fails or yields a non-list, never raising.
-/
def parse_json_array (response_text : String) : List Json :=
  let t := extractArraySpan (stripFences response_text.data)
  match json_loadsL t with
  | some (Json.arr xs) => xs
  | some _ => []
  | none => []

example : parse_json_array "```json\n[\x7b\"a\":1\x7d]\n```" = [Json.obj [("a", Json.num 1)]] := rfl

example : parse_json_array "total garbage" = [] := rfl

example : parse_json_response "not json at all" = Json.obj [("text", Json.str "not json at all")] := rfl

/-- Last-wins association lookup, matching the dictionaries Python builds
    (later duplicate keys overwrite earlier ones). -/
def jLookup (kvs : List (String × Json)) (key : String) : Option Json :=
  (kvs.reverse.find? (fun kv => kv.1 = key)).map (fun kv => kv.2)

/-- Python `dict.get(key, default)` on a JSON value; `AttributeError` when the
    value is not a dictionary. -/
def pyGet (j : Json) (key : String) (dflt : Json) : Except String Json :=
  match j with
  | Json.obj kvs =>
    match jLookup kvs key with
    | some v => Except.ok v
    | none => Except.ok dflt
  | _ => Except.error "AttributeError: object has no attribute get"

/-- Python `d[key]` on a JSON value; `KeyError` when absent, `TypeError` when
    the value is not a dictionary. -/
def pyIndex (j : Json) (key : String) : Except String Json :=
  match j with
  | Json.obj kvs =>
    match jLookup kvs key with
    | some v => Except.ok v
    | none => Except.error "KeyError"
  | _ => Except.error "TypeError: object is not subscriptable"

/-- Python truthiness of a JSON value. -/
def jTruthy : Json → Bool
  | Json.null => false
  | Json.bool b => b
  | Json.num n => decide (n ≠ 0)
  | Json.str s => !s.isEmpty
  | Json.arr xs => !xs.isEmpty
  | Json.obj kvs => !kvs.isEmpty

/-- Python `==` comparison of a JSON value against a string literal. -/
def jEqStr (j : Json) (s : String) : Bool :=
  match j with
  | Json.str t => t = s
  | _ => false

/-- Python `repr()` of a JSON value (scalars exact; container elements
    rendered with single-quoted strings as Python does). -/
def pyRepr : Json → String
  | Json.null => "None"
  | Json.bool true => "True"
  | Json.bool false => "False"
  | Json.num n => toString n
  | Json.str s => "\x27" ++ s ++ "\x27"
  | Json.arr xs =>
      "[" ++ String.intercalate ", " (xs.attach.map (fun ⟨x, hx⟩ => pyRepr x)) ++ "]"
  | Json.obj kvs =>
      "\x7b" ++ String.intercalate ", "
        (kvs.attach.map (fun ⟨(k, v), hkv⟩ => "\x27" ++ k ++ "\x27: " ++ pyRepr v)) ++ "\x7d"
decreasing_by
  · have h := List.sizeOf_lt_of_mem hx
    simp only [Json.arr.sizeOf_spec]
    omega
  · have h := List.sizeOf_lt_of_mem hkv
    simp only [Prod.mk.sizeOf_spec] at h
    simp only [Json.obj.sizeOf_spec]
    omega

/-- Python `str()` of a JSON value as used inside f-strings. -/
def pyStr (j : Json) : String :=
  match j with
  | Json.str s => s
  | _ => pyRepr j

/-- One conversation message `{role, content}` (a ConversationTurn). -/
structure Turn where
  role : String
  content : String
deriving Repr, DecidableEq

/-- ASCII lowercasing, modelling Python `str.lower()` on the ASCII texts
    this codebase matches against. -/
def asciiLower (c : Char) : Char :=
  if 'A' ≤ c && c ≤ 'Z' then Char.ofNat (c.toNat + 32) else c

/-- Lowercase a character list. -/
def lowerL (cs : List Char) : List Char := cs.map asciiLower

/-- Python `pat in text` substring containment. -/
def listContainsSub (pat : List Char) : List Char → Bool
  | [] => pat.isEmpty
  | c :: rest => List.isPrefixOf pat (c :: rest) || listContainsSub pat rest

/-- Substring containment on strings. -/
def strContains (s pat : String) : Bool := listContainsSub pat.data s.data

/-- GIVE_UP_PHRASES (agent.py lines 37-45). -/
def GIVE_UP_PHRASES : List String := [
  "didn\x27t work", "didnt work", "doesn\x27t work", "doesnt work",
  "not working", "still broken", "still not",
  "call a pro", "call someone", "need a professional", "need professional",
  "send someone", "get help", "give up", "i give up",
  "forget it", "just fix it", "can\x27t fix", "cant fix",
  "too hard", "too complicated", "need a plumber", "need an electrician",
  "need a technician", "escalate", "talk to human", "real person"]

/-- `MaintenanceAgent._detect_give_up` (agent.py lines 160-165): empty text
    is no trigger; otherwise case-insensitive substring match against the
    fixed phrase set. -/
def detect_give_up (text : String) : Bool :=
  if text.isEmpty then false
  else
    let text_lower := lowerL text.data
    GIVE_UP_PHRASES.any (fun phrase => listContainsSub phrase.data text_lower)

/-- The character class `\s` of Python's `re` module (ASCII fragment). -/
def isRegexSpace (c : Char) : Bool :=
  c = ' ' || c = '\t' || c = '\n' || c = '\r' || c = '\x0b' || c = '\x0c'

/-- The separator class `[-.\s]` of the phone regex. -/
def isSepChar (c : Char) : Bool := c = '-' || c = '.' || isRegexSpace c

/-- The character class `\w` (ASCII fragment). -/
def isWordChar (c : Char) : Bool := c.isAlphanum || c = '_'

/-- Exactly `n` ASCII digits, returning them and the rest. -/
def takeDigits : Nat → List Char → Option (List Char × List Char)
  | 0, cs => some ([], cs)
  | _ + 1, [] => none
  | n + 1, c :: cs =>
      if c.isDigit then
        match takeDigits n cs with
        | some (d, r) => some (c :: d, r)
        | none => none
      else none

/-- One optional separator character (`[-.\s]?`, greedy; the class is disjoint
    from `\d`, so greedy matching never needs to backtrack). -/
def optSep (cs : List Char) : List Char × List Char :=
  match cs with
  | c :: t => if isSepChar c then ([c], t) else ([], cs)
  | [] => ([], cs)

/-- First alternative of the phone regex `\d{3}[-.\s]?\d{3}[-.\s]?\d{4}`
    anchored at the current position. -/
def matchPhoneAlt1 (cs : List Char) : Option (List Char) :=
  match takeDigits 3 cs with
  | none => none
  | some (d1, r1) =>
    let (s1, r2) := optSep r1
    match takeDigits 3 r2 with
    | none => none
    | some (d2, r3) =>
      let (s2, r4) := optSep r3
      match takeDigits 4 r4 with
      | none => none
      | some (d3, _) => some (d1 ++ s1 ++ d2 ++ s2 ++ d3)

/-- Second alternative `\(\d{3}\)\s?\d{3}[-.\s]?\d{4}` anchored at the
    current position. -/
def matchPhoneAlt2 (cs : List Char) : Option (List Char) :=
  match cs with
  | '(' :: r0 =>
    match takeDigits 3 r0 with
    | some (d1, r1) =>
      match r1 with
      | ')' :: r2 =>
        let (sp, r3) := match r2 with
                        | c :: t => if isRegexSpace c then ([c], t) else ([], r2)
                        | [] => ([], r2)
        match takeDigits 3 r3 with
        | some (d2, r4) =>
          let (s2, r5) := optSep r4
          match takeDigits 4 r5 with
          | some (d3, _) => some ('(' :: d1 ++ ')' :: sp ++ d2 ++ s2 ++ d3)
          | none => none
        | none => none
      | _ => none
    | none => none
  | _ => none

/-- `re.search` of the phone pattern: leftmost position, first alternative
    preferred, returning group 1 (the whole alternation). -/
def phoneSearch : List Char → Option String
  | [] => none
  | c :: rest =>
    match matchPhoneAlt1 (c :: rest) with
    | some m => some (String.mk m)
    | none =>
      match matchPhoneAlt2 (c :: rest) with
      | some m => some (String.mk m)
      | none => phoneSearch rest

/-- Case-insensitive literal keyword at the current position. -/
def ciHasKw (kw : List Char) (cs : List Char) : Option (List Char) :=
  if lowerL (cs.take kw.length) = kw && kw.length ≤ cs.length then some (cs.drop kw.length)
  else none

/-- The optional `(?:is|:)?` with its backtracking into the empty branch when
    the continuation fails (IGNORECASE applies to the `is`). -/
def optIsColon (cs1 : List Char) (tryFrom : List Char → Option (List Char)) :
    Option (List Char) :=
  match cs1 with
  | a :: b :: t =>
      if asciiLower a = 'i' && asciiLower b = 's' then
        match tryFrom t with
        | some g => some g
        | none => tryFrom cs1
      else if a = ':' then
        match tryFrom (b :: t) with
        | some g => some g
        | none => tryFrom cs1
      else tryFrom cs1
  | [a] =>
      if a = ':' then
        match tryFrom [] with
        | some g => some g
        | none => tryFrom cs1
      else tryFrom cs1
  | [] => tryFrom []

/-- The group `(\w+[-\w]*)` (greedy, nothing follows, so both stars are
    simply maximal runs). -/
def wordRun (cs : List Char) : Option (List Char) :=
  let w := cs.takeWhile isWordChar
  if w.isEmpty then none
  else
    let r := cs.drop w.length
    some (w ++ r.takeWhile (fun c => isWordChar c || c = '-'))

/-- Tail `\s*(?:is|:)?\s*[#]?(\w+[-\w]*)` of the first access pattern,
    anchored after the keyword. -/
def accessTail1 (cs : List Char) : Option (List Char) :=
  optIsColon (cs.dropWhile isRegexSpace) (fun cs2 =>
    let cs3 := cs2.dropWhile isRegexSpace
    let cs4 := match cs3 with
               | '#' :: t => t
               | _ => cs3
    wordRun cs4)

/-- The lazy group-with-terminator `(.+?)(?:\.|$)`: the shortest nonempty
    newline-free run ending at a literal dot, the end of the string, or a
    final newline. -/
def lazyDotAux (acc : List Char) : List Char → Option (List Char)
  | [] => some acc.reverse
  | '.' :: _ => some acc.reverse
  | ['\n'] => some acc.reverse
  | c :: rest => if c = '\n' then none else lazyDotAux (c :: acc) rest

/-- Entry point of the lazy group: the first character must exist and not be
    a newline. -/
def lazyDotTail (cs : List Char) : Option (List Char) :=
  match cs with
  | [] => none
  | c :: rest => if c = '\n' then none else lazyDotAux [c] rest

/-- Tail `\s*(?:is|:)?\s*(.+?)(?:\.|$)` of the second access pattern. -/
def accessTail2 (cs : List Char) : Option (List Char) :=
  optIsColon (cs.dropWhile isRegexSpace) (fun cs2 =>
    lazyDotTail (cs2.dropWhile isRegexSpace))

/-- Keyword alternation: try each keyword at the current position, running
    the tail after a match (keyword first letters are pairwise distinct, so
    at most one alternative fires per position). -/
def tryKeywords (kws : List (List Char)) (cs : List Char)
    (tail : List Char → Option (List Char)) : Option (List Char) :=
  match kws with
  | [] => none
  | kw :: rest =>
    match ciHasKw kw cs with
    | some r =>
      match tail r with
      | some g => some g
      | none => tryKeywords rest cs tail
    | none => tryKeywords rest cs tail

/-- `re.search` scan of an access pattern over all positions. -/
def accessSearch (kws : List (List Char)) (tail : List Char → Option (List Char)) :
    List Char → Option (List Char)
  | [] => none
  | c :: rest =>
    match tryKeywords kws (c :: rest) tail with
    | some g => some g
    | none => accessSearch kws tail rest

/-- Keywords of the first access pattern `(?:key|code|access|gate|door)`. -/
def ACCESS_KW1 : List (List Char) :=
  ["key".data, "code".data, "access".data, "gate".data, "door".data]

/-- Keywords of the second access pattern `(?:available|availability|free)`. -/
def ACCESS_KW2 : List (List Char) :=
  ["available".data, "availability".data, "free".data]

/-- Result shape of `_detect_escalation_info`. -/
structure EscalationDetected where
  has_phone : Bool
  has_access : Bool
  phone : Option String
  access : Option String
deriving Repr, DecidableEq

/-- All user-turn contents joined with single spaces
    (`" ".join(...)` in `_detect_escalation_info`). -/
def fullUserText (history : List Turn) : String :=
  String.intercalate " " ((history.filter (fun m => m.role = "user")).map (fun m => m.content))

/-- `MaintenanceAgent._detect_escalation_info` (agent.py lines 167-195):
    phone via the phone regex, access via the two access patterns in order
    (first pattern with a match anywhere wins), `group(1).strip()` for the
    access value. -/
def detect_escalation_info (history : List Turn) : EscalationDetected :=
  let full_text := (fullUserText history).data
  let phoneRes := phoneSearch full_text
  let accessRes :=
    match accessSearch ACCESS_KW1 accessTail1 full_text with
    | some g => some g
    | none => accessSearch ACCESS_KW2 accessTail2 full_text
  { has_phone := phoneRes.isSome
    has_access := accessRes.isSome
    phone := phoneRes
    access := accessRes.map (fun g => pyStrip (String.mk g)) }

example :
    (detect_escalation_info [⟨"user", "my number is 555-123-4567"⟩]).phone =
      some "555-123-4567" := rfl

example :
    (detect_escalation_info [⟨"user", "the key is under the mat"⟩]).access =
      some "under" := rfl

example : (detect_escalation_info []).has_phone = false := rfl

example : detect_give_up "I GIVE UP, just send someone" = true := rfl

example : detect_give_up "the sink is leaking" = false := rfl

/-- The `collected_info` dictionary `{phone: string|null, access: string|null}`. -/
structure ContactInfo where
  phone : Option String := none
  access : Option String := none
deriving Repr, DecidableEq

/-- Python truthiness of `d.get(key)` for an optional string field. -/
def truthyOpt : Option String → Bool
  | none => false
  | some s => !s.isEmpty

/-- Python `str()` of an optional value as interpolated by an f-string
    (`None` prints as "None"). -/
def pyStrOptGet : Option String → String
  | none => "None"
  | some s => s

/-- The latest user message: first user turn of the reversed history, else ""
    (triage_with_image_bytes lines 414-419). -/
def latestUserMsg (history : List Turn) : String :=
  match history.reverse.find? (fun m => m.role = "user") with
  | some m => m.content
  | none => ""

/-- The merge of newly detected escalation info into the accumulator
    (triage_with_image_bytes lines 431-434): a detected field overwrites,
    an undetected field leaves the previous value untouched. -/
def mergeCollected (collected_info : ContactInfo) (detected : EscalationDetected) :
    ContactInfo :=
  { phone := if detected.has_phone then detected.phone else collected_info.phone
    access := if detected.has_access then detected.access else collected_info.access }

/-- `_generate_vendor_summary` (agent.py lines 197-247): oracle JSON with a
    deterministic rebuild of an empty summary, locally collected access and
    contact always appended, generic fallback (and category "Other") on any
    failure.  Returns (summary, category). -/
def generate_vendor_summary (oracleResp : Except String String)
    (contact_info : ContactInfo) : String × Json :=
  let body : Except String (String × Json) := do
    match oracleResp with
    | Except.error e => Except.error e
    | Except.ok txt =>
      let result := parse_json_response txt
      let summaryJ ← pyGet result "summary" (Json.str "")
      let base ←
        if jTruthy summaryJ then
          match summaryJ with
          | Json.str s => Except.ok s
          | _ => Except.error "AttributeError: strip on non-string"
        else do
          let issueJ ← pyGet result "issue" (Json.str "Maintenance needed")
          let s0 := "Issue: " ++ pyStr issueJ ++ ". "
          let diyJ ← pyGet result "diy_attempted" Json.null
          let s1 ←
            if jTruthy diyJ then do
              let dv ← pyIndex result "diy_attempted"
              pure (s0 ++ "DIY: " ++ pyStr dv ++ ". ")
            else pure s0
          let partsJ ← pyGet result "likely_parts" Json.null
          if jTruthy partsJ then do
            let pv ← pyIndex result "likely_parts"
            pure (s1 ++ "Parts: " ++ pyStr pv ++ ". ")
          else pure s1
      let base := if truthyOpt contact_info.access then
          base ++ "Access: " ++ pyStrOptGet contact_info.access ++ ". " else base
      let base := if truthyOpt contact_info.phone then
          base ++ "Contact: " ++ pyStrOptGet contact_info.phone else base
      let categoryJ ← pyGet result "category" (Json.str "Other")
      Except.ok (pyStrip base, categoryJ)
  match body with
  | Except.ok p => p
  | Except.error _ => ("Maintenance issue - tenant requested professional help.", Json.str "Other")

/-- The `ticket_data` payload built from the filled slots plus category and
    risk (agent.py lines 548-558 / 563-573). -/
structure TicketData where
  tenant_name : Json
  unit : Json
  issue : Json
  severity : Json
  location : Json
  access : Json
  contact : Json
  category : Json
  risk : Json
deriving Repr

/-- The response dictionary of triage / triage_with_image_bytes.  `Option`
    fields model keys that are absent from some of the returned
    dictionaries. -/
structure TriageResponse where
  text : Json
  risk : Json
  action : Json
  category : Json
  missing_info : Option Json := none
  filled_slots : Option Json := none
  request_photo : Option Json := none
  escalation_mode : Option Bool := none
  contact_info : Option ContactInfo := none
  ready_for_ticket : Bool := false
  awaiting_confirmation : Bool := false
  ticket_data : Option TicketData := none
  is_emergency : Bool := false
  ticket_summary : Option String := none
  error : Option String := none
deriving Repr

/-- The ordered list of all seven slots as reported missing by the safe
    default decision (agent.py lines 379 / 588). -/
def sevenMissing : Json :=
  Json.arr [Json.str "Tenant_Name", Json.str "Unit", Json.str "Issue", Json.str "Severity",
            Json.str "Location", Json.str "Access", Json.str "Contact"]

/-- The safe default decision of `triage` on an escaped exception
    (agent.py lines 373-383). -/
def triageErrorResponse (e : String) : TriageResponse :=
  { text := Json.str "I encountered an issue. Please try again."
    risk := Json.str "Yellow"
    action := Json.str "QUESTION"
    category := Json.str "Other"
    missing_info := some sevenMissing
    filled_slots := some (Json.obj [])
    request_photo := some (Json.bool false)
    error := some e }

/-- The safe default decision of `triage_with_image_bytes` on an escaped
    exception (agent.py lines 582-594). -/
def twibErrorResponse (e : String) : TriageResponse :=
  { triageErrorResponse e with
    escalation_mode := some false
    contact_info := some {} }

/-- `filled_slots.get(...)`-based ticket data construction
    (raises when `filled_slots` or `result` is not a dictionary). -/
def buildTicketData (filled_slots result : Json) : Except String TicketData := do
  let tn ← pyGet filled_slots "tenant_name" Json.null
  let un ← pyGet filled_slots "unit" Json.null
  let iss ← pyGet filled_slots "issue" Json.null
  let sev ← pyGet filled_slots "severity" Json.null
  let loc ← pyGet filled_slots "location" Json.null
  let acc ← pyGet filled_slots "access" Json.null
  let con ← pyGet filled_slots "contact" Json.null
  let cat ← pyGet result "category" (Json.str "Other")
  let rk ← pyGet result "risk" (Json.str "Yellow")
  pure ⟨tn, un, iss, sev, loc, acc, con, cat, rk⟩

/-- The `if action == "CREATE_TICKET"` block (agent.py lines 337-349 /
    546-558). -/
def applyCreateTicket (rd : TriageResponse) (action filled_slots result : Json) :
    Except String TriageResponse :=
  if jEqStr action "CREATE_TICKET" then do
    let td ← buildTicketData filled_slots result
    pure { rd with ready_for_ticket := true, ticket_data := some td }
  else pure rd

/-- The `if action == "CONFIRM"` block (agent.py lines 352-364 / 561-573). -/
def applyConfirm (rd : TriageResponse) (action filled_slots result : Json) :
    Except String TriageResponse :=
  if jEqStr action "CONFIRM" then do
    let td ← buildTicketData filled_slots result
    pure { rd with awaiting_confirmation := true, ticket_data := some td }
  else pure rd

/-- The `if action == "EMERGENCY"` block (agent.py lines 367-369 / 576-578). -/
def applyEmergency (rd : TriageResponse) (action result : Json) :
    Except String TriageResponse :=
  if jEqStr action "EMERGENCY" then do
    let et ← pyGet result "text"
      (Json.str "This is an emergency situation. Please evacuate if necessary and call emergency services.")
    pure { rd with is_emergency := true, text := Json.str ("🚨 EMERGENCY: " ++ pyStr et) }
  else pure rd

/-- The shared normal-mode response construction of `triage`
    (agent.py lines 318-371) and `triage_with_image_bytes`
    (lines 525-580) from the oracle's text: sanitize, read the fields with
    their defaults, then the CREATE_TICKET / CONFIRM / EMERGENCY
    post-processing.  Errors model the `AttributeError` raised by `.get`
    on non-dictionary values, which the callers catch. -/
def triageBody (txt : String) : Except String TriageResponse := do
  let result := parse_json_response txt
  let action ← pyGet result "action" (Json.str "QUESTION")
  let missing_info ← pyGet result "missing_info" (Json.arr [])
  let filled_slots ← pyGet result "filled_slots" (Json.obj [])
  let text0 ← pyGet result "text" (Json.str "Could you provide more details about the issue?")
  let risk0 ← pyGet result "risk" (Json.str "Yellow")
  let category0 ← pyGet result "category" (Json.str "Other")
  let request_photo ← pyGet result "request_photo" (Json.bool false)
  let rd : TriageResponse :=
    { text := text0, risk := risk0, action := action, category := category0
      missing_info := some missing_info
      filled_slots := some filled_slots
      request_photo := some request_photo }
  let rd ← applyCreateTicket rd action filled_slots result
  let rd ← applyConfirm rd action filled_slots result
  applyEmergency rd action result

/-- `MaintenanceAgent.triage` (agent.py lines 253-383); the oracle call is
    the explicit `oracleResp` input, the history and optional image shape
    only the prompt sent to the oracle. -/
def triage (oracleResp : Except String String) : TriageResponse :=
  match oracleResp with
  | Except.error e => triageErrorResponse e
  | Except.ok txt =>
    match triageBody txt with
    | Except.ok rd => rd
    | Except.error e => triageErrorResponse e

/-- Text of the ask-for-both follow-up (agent.py line 455). -/
def askBothText : String :=
  "I understand - let me connect you with a professional. To create a service ticket, I need:\n\n1️⃣ **Your phone number** (so the technician can reach you)\n2️⃣ **Access info** (gate code, key location, or best times to visit)"

/-- Text of the ask-for-phone follow-up (agent.py line 464). -/
def askPhoneText (access : Option String) : String :=
  "Thanks! Access info noted: **" ++ pyStrOptGet access ++
    "**\n\nNow, what\x27s the best phone number to reach you?"

/-- Text of the ask-for-access follow-up (agent.py line 473). -/
def askAccessText (phone : Option String) : String :=
  "Got your number: **" ++ pyStrOptGet phone ++
    "**\n\nLastly, what\x27s the access code or best time for the technician to visit?"

/-- Text of the ticket-created message (agent.py line 443). -/
def createTicketText (summary : String) : String :=
  "✅ Got it! I\x27m creating a service ticket now.\n\n📋 **Ticket Summary:**\n" ++ summary ++
    "\n\nA professional will contact you soon."

/-- The escalation-mode branch of `triage_with_image_bytes`
    (agent.py lines 425-479): detect and merge contact info, then the
    four-way case split on (phone collected) × (access collected). -/
def escalationStep (history : List Turn) (collected_info : ContactInfo)
    (oracleVendor : Except String String) : TriageResponse :=
  let detected := detect_escalation_info history
  let ci := mergeCollected collected_info detected
  let has_phone := truthyOpt ci.phone
  let has_access := truthyOpt ci.access
  if has_phone && has_access then
    let sc := generate_vendor_summary oracleVendor ci
    { text := Json.str (createTicketText sc.1)
      risk := Json.str "Yellow"
      action := Json.str "CREATE_TICKET"
      category := sc.2
      escalation_mode := some false
      contact_info := some ci
      ticket_summary := some sc.1 }
  else if !has_phone && !has_access then
    { text := Json.str askBothText
      risk := Json.str "Yellow"
      action := Json.str "Escalate"
      category := Json.str "Other"
      escalation_mode := some true
      contact_info := some ci }
  else if !has_phone then
    { text := Json.str (askPhoneText ci.access)
      risk := Json.str "Yellow"
      action := Json.str "Escalate"
      category := Json.str "Other"
      escalation_mode := some true
      contact_info := some ci }
  else
    { text := Json.str (askAccessText ci.phone)
      risk := Json.str "Yellow"
      action := Json.str "Escalate"
      category := Json.str "Other"
      escalation_mode := some true
      contact_info := some ci }

/-- `MaintenanceAgent.triage_with_image_bytes` (agent.py lines 385-594):
    give-up detection on the latest user turn switches into escalation mode;
    escalation mode runs the collector branch; otherwise the normal
    slot-filling branch runs on the triage oracle's response.  The image
    bytes shape only the oracle prompt and are therefore not part of the
    deterministic model. -/
def triage_with_image_bytes (history : List Turn) (escalation_mode : Bool)
    (collected_info : ContactInfo) (oracleTriage : Except String String)
    (oracleVendor : Except String String) : TriageResponse :=
  let latest_user_msg := latestUserMsg history
  let em := escalation_mode || detect_give_up latest_user_msg
  if em then escalationStep history collected_info oracleVendor
  else
    match oracleTriage with
    | Except.error e => twibErrorResponse e
    | Except.ok txt =>
      match triageBody txt with
      | Except.ok rd => { rd with escalation_mode := some false, contact_info := some {} }
      | Except.error e => twibErrorResponse e

/-- The move-out report dictionary of `_audit_move_out` (success case). -/
structure MoveOutReport where
  success : Bool
  items : List Json
  summary : String
  new_damages : List String
  total_estimated_cost : Int
deriving Repr

/-- Python numeric coercion used by `sum` (booleans are integers). -/
def jNum : Json → Except String Int
  | Json.num n => Except.ok n
  | Json.bool b => Except.ok (if b then 1 else 0)
  | _ => Except.error "TypeError: unsupported operand type"

/-- `new_damages = [i for i in items if i.get("is_new")]` (agent.py line 768):
    the comprehension keeps items with truthy `is_new`, raising
    `AttributeError` on non-dictionary items. -/
def moveOutNewDamages : List Json → Except String (List Json)
  | [] => Except.ok []
  | i :: rest => do
    let v ← pyGet i "is_new" Json.null
    let tl ← moveOutNewDamages rest
    if jTruthy v then pure (i :: tl) else pure tl

/-- `total_cost = sum(i.get("estimated_cost", 0) for i in new_damages)`
    (agent.py line 769); `TypeError` on non-numeric costs. -/
def moveOutTotalCost : List Json → Except String Int
  | [] => Except.ok 0
  | i :: rest => do
    let v ← pyGet i "estimated_cost" (Json.num 0)
    let n ← jNum v
    let tl ← moveOutTotalCost rest
    pure (n + tl)

/-- One formatted new-damage line (agent.py line 782). -/
def fmtDamage (i : Json) : Except String String := do
  let it ← pyIndex i "item"
  let cond ← pyIndex i "condition"
  let cost ← pyGet i "estimated_cost" (Json.num 0)
  pure (pyStr it ++ ": " ++ pyStr cond ++ " ($" ++ pyStr cost ++ ")")

/-- The list comprehension building the formatted new-damage lines
    (agent.py line 782). -/
def fmtDamages : List Json → Except String (List String)
  | [] => Except.ok []
  | i :: rest => do
    let s ← fmtDamage i
    let tl ← fmtDamages rest
    pure (s :: tl)

/-- The deterministic aggregation step of `_audit_move_out`
    (agent.py lines 764-784): filter by truthy `is_new`, sum the estimated
    costs over exactly the filtered items, render the one-line summary and
    the formatted damage list; no item is reclassified. -/
def audit_move_out_aggregate (items : List Json) : Except String MoveOutReport := do
  let nd ← moveOutNewDamages items
  let total_cost ← moveOutTotalCost nd
  let summary := "Inspected " ++ toString items.length ++ " items. " ++
    (if !nd.isEmpty then
      "Found " ++ toString nd.length ++ " new damages. Total estimated cost: $" ++
        toString total_cost ++ "."
    else "No new damages found beyond normal wear.")
  let fmts ← fmtDamages nd
  pure { success := true, items := items, summary := summary,
         new_damages := fmts, total_estimated_cost := total_cost }

/-- Outcome of a move-out audit: the success dictionary, or the
    `{"success": False, "error": ..., "items": []}` failure dictionary. -/
inductive AuditOutcome where
  | success (report : MoveOutReport)
  | failure (error : String)
deriving Repr

/-- `_audit_move_out` after the video upload (agent.py lines 719-790): the
    oracle response is parsed and aggregated, the surrounding try/except
    turns any exception into the failure dictionary.  Video upload, polling
    and unconditional deletion are I/O outside the model. -/
def audit_move_out_outcome (oracleResp : Except String String) : AuditOutcome :=
  match oracleResp with
  | Except.error e => AuditOutcome.failure e
  | Except.ok txt =>
    match audit_move_out_aggregate (parse_json_array txt) with
    | Except.ok rep => AuditOutcome.success rep
    | Except.error e => AuditOutcome.failure e

/-- Result of the HTTP move-out endpoint: an HTTPException or the audit body. -/
inductive EndpointResult where
  | httpError (status : Nat) (detail : String)
  | ok (outcome : AuditOutcome)
deriving Repr

/-- Allowed move-out video content types (main.py line 307). -/
def ALLOWED_VIDEO_TYPES : List String :=
  ["video/mp4", "video/quicktime", "video/x-msvideo", "video/webm", "video/mpeg"]

/-- `audit_move_out` endpoint (main.py lines 294-346): media-type
    validation, then the baseline lookup (`baselineRow` is the database row
    with its nullable summary column), a 404 with the distinct
    "no baseline" detail when the description is missing or empty — raised
    before the agent is constructed and hence before any oracle call — and
    only then the move-out audit itself. -/
def audit_move_out_endpoint (content_type : String) (unit_id : String)
    (baselineRow : Option (Option String)) (oracleResp : Except String String) :
    EndpointResult :=
  if !(ALLOWED_VIDEO_TYPES.contains content_type) then
    EndpointResult.httpError 400
      ("Invalid video type. Allowed types: " ++ String.intercalate ", " ALLOWED_VIDEO_TYPES)
  else
    let baseline_description : Option String := baselineRow.bind id
    if !(truthyOpt baseline_description) then
      EndpointResult.httpError 404
        ("No move-in baseline found for unit \x27" ++ unit_id ++
          "\x27. Please complete a move-in audit first.")
    else
      EndpointResult.ok (audit_move_out_outcome oracleResp)

lemma exceptBind_ok {α β : Type} (a : α) (f : α → Except String β) :
    (Except.ok a >>= f : Except String β) = f a := rfl

lemma listContainsSub_append_right (pat l1 l2 : List Char)
    (h : listContainsSub pat l2 = true) : listContainsSub pat (l1 ++ l2) = true := by
  induction l1 with
  | nil => simpa using h
  | cons c t ih =>
      simp only [List.cons_append, listContainsSub, Bool.or_eq_true]
      exact Or.inr ih

lemma twib_escalation_mode (history : List Turn) (col : ContactInfo)
    (oT oV : Except String String) :
    triage_with_image_bytes history true col oT oV = escalationStep history col oV := rfl

lemma escalationStep_action_cases (history : List Turn) (col : ContactInfo)
    (oV : Except String String) :
    (escalationStep history col oV).action = Json.str "CREATE_TICKET" ∨
    (escalationStep history col oV).action = Json.str "Escalate" := by
  simp only [escalationStep]
  split_ifs <;> simp

lemma escalationStep_contact (history : List Turn) (col : ContactInfo)
    (oV : Except String String) :
    (escalationStep history col oV).contact_info =
      some (mergeCollected col (detect_escalation_info history)) := by
  simp only [escalationStep]
  split_ifs <;> rfl

/-- C1: for every history whose latest user turn contains a give-up phrase,
`triage_with_image_bytes` called with `escalation_mode = false` takes the
escalation branch: the decision equals the escalation collector's decision,
which does not depend on the triage oracle's output, and its action is one
of the two escalation-branch actions. -/
theorem give_up_triggers_escalation
    (history : List Turn) (collected_info : ContactInfo)
    (oracleTriage oracleVendor : Except String String)
    (h : detect_give_up (latestUserMsg history) = true) :
    triage_with_image_bytes history false collected_info oracleTriage oracleVendor =
      escalationStep history collected_info oracleVendor ∧
    ((triage_with_image_bytes history false collected_info oracleTriage oracleVendor).action =
        Json.str "Escalate" ∨
      (triage_with_image_bytes history false collected_info oracleTriage oracleVendor).action =
        Json.str "CREATE_TICKET") := by
  have he : triage_with_image_bytes history false collected_info oracleTriage oracleVendor =
      escalationStep history collected_info oracleVendor := by
    simp [triage_with_image_bytes, h]
  refine ⟨he, ?_⟩
  rw [he]
  rcases escalationStep_action_cases history collected_info oracleVendor with h1 | h1
  · exact Or.inr h1
  · exact Or.inl h1

/-- C1 witness: a concrete give-up history, with a triage oracle that would
have answered CONFIRM, still lands in the escalation branch. -/
theorem give_up_triggers_escalation_witness :
    detect_give_up (latestUserMsg [⟨"user", "I give up"⟩]) = true ∧
    ((triage_with_image_bytes [⟨"user", "I give up"⟩] false {}
        (Except.ok "\x7b\"action\":\"CONFIRM\"\x7d") (Except.error "down")).action =
        Json.str "Escalate" ∨
      (triage_with_image_bytes [⟨"user", "I give up"⟩] false {}
        (Except.ok "\x7b\"action\":\"CONFIRM\"\x7d") (Except.error "down")).action =
        Json.str "CREATE_TICKET") :=
  ⟨rfl, (give_up_triggers_escalation [⟨"user", "I give up"⟩] {}
      (Except.ok "\x7b\"action\":\"CONFIRM\"\x7d") (Except.error "down") rfl).2⟩

/-- C4: in escalation mode the returned `contact_info` is always the merge of
the previously collected fields with the freshly detected ones; an
undetected field (detection reporting nothing) is preserved unchanged —
in particular a previously collected phone — and a detected field
overwrites the same-name field. -/
theorem escalation_merge_preserves
    (history : List Turn) (collected : ContactInfo) (oT oV : Except String String) :
    (triage_with_image_bytes history true collected oT oV).contact_info =
      some (mergeCollected collected (detect_escalation_info history)) ∧
    ((detect_escalation_info history).has_phone = false →
      (mergeCollected collected (detect_escalation_info history)).phone = collected.phone) ∧
    ((detect_escalation_info history).has_phone = true →
      (mergeCollected collected (detect_escalation_info history)).phone =
        (detect_escalation_info history).phone) ∧
    ((detect_escalation_info history).has_access = false →
      (mergeCollected collected (detect_escalation_info history)).access = collected.access) ∧
    ((detect_escalation_info history).has_access = true →
      (mergeCollected collected (detect_escalation_info history)).access =
        (detect_escalation_info history).access) := by
  refine ⟨?_, ?_, ?_, ?_, ?_⟩
  · rw [twib_escalation_mode]
    exact escalationStep_contact history collected oV
  all_goals intro h
  all_goals simp [mergeCollected, h]

/-- C4 witness: with a collected phone and a history in which no phone is
re-detected, the returned contact_info still carries the phone unchanged. -/
theorem escalation_merge_preserves_witness :
    (detect_escalation_info [⟨"user", "it is still broken"⟩]).has_phone = false ∧
    (triage_with_image_bytes [⟨"user", "it is still broken"⟩] true
        ⟨some "555-123-4567", none⟩ (Except.error "a") (Except.error "b")).contact_info =
      some ⟨some "555-123-4567", none⟩ :=
  ⟨rfl, (escalation_merge_preserves [⟨"user", "it is still broken"⟩]
      ⟨some "555-123-4567", none⟩ (Except.error "a") (Except.error "b")).1⟩

/-- The phone question sentence of the escalation collector. -/
def phoneQuestionMarker : String := "what\x27s the best phone number to reach you?"

/-- The access question sentence of the escalation collector. -/
def accessQuestionMarker : String := "what\x27s the access code or best time"

/-- C3: in escalation mode the four (phone collected) × (access collected)
combinations are handled exhaustively — the action is always CREATE_TICKET
or Escalate, CREATE_TICKET with a synthesized vendor summary exactly when
both fields are present, and otherwise the returned text is the dedicated
follow-up for the missing field(s): the ask-both text requests both fields,
the ask-phone text contains the phone question and (on its fixed skeleton)
not the access question, and symmetrically for the ask-access text. -/
theorem escalation_collector_four_cases
    (history : List Turn) (col ci : ContactInfo) (oT oV : Except String String)
    (hci : ci = mergeCollected col (detect_escalation_info history)) :
    ((triage_with_image_bytes history true col oT oV).action = Json.str "CREATE_TICKET" ∨
      (triage_with_image_bytes history true col oT oV).action = Json.str "Escalate") ∧
    (truthyOpt ci.phone = true → truthyOpt ci.access = true →
      (triage_with_image_bytes history true col oT oV).action = Json.str "CREATE_TICKET" ∧
      (triage_with_image_bytes history true col oT oV).ticket_summary =
        some (generate_vendor_summary oV ci).1) ∧
    (truthyOpt ci.phone = false → truthyOpt ci.access = true →
      (triage_with_image_bytes history true col oT oV).action = Json.str "Escalate" ∧
      (triage_with_image_bytes history true col oT oV).text =
        Json.str (askPhoneText ci.access)) ∧
    (truthyOpt ci.phone = true → truthyOpt ci.access = false →
      (triage_with_image_bytes history true col oT oV).action = Json.str "Escalate" ∧
      (triage_with_image_bytes history true col oT oV).text =
        Json.str (askAccessText ci.phone)) ∧
    (truthyOpt ci.phone = false → truthyOpt ci.access = false →
      (triage_with_image_bytes history true col oT oV).action = Json.str "Escalate" ∧
      (triage_with_image_bytes history true col oT oV).text = Json.str askBothText) ∧
    (strContains askBothText "**Your phone number**" = true ∧
      strContains askBothText "**Access info**" = true) ∧
    (∀ a, strContains (askPhoneText a) phoneQuestionMarker = true) ∧
    (∀ p, strContains (askAccessText p) accessQuestionMarker = true) ∧
    (strContains (askPhoneText none) accessQuestionMarker = false ∧
      strContains (askAccessText none) phoneQuestionMarker = false) := by
  subst hci
  rw [twib_escalation_mode]
  refine ⟨escalationStep_action_cases history col oV, ?_, ?_, ?_, ?_,
    ⟨by decide, by decide⟩, ?_, ?_, ⟨by decide, by decide⟩⟩
  · intro hp ha
    simp [escalationStep, hp, ha]
  · intro hp ha
    simp [escalationStep, hp, ha]
  · intro hp ha
    simp [escalationStep, hp, ha]
  · intro hp ha
    simp [escalationStep, hp, ha]
  · intro a
    simp only [askPhoneText, strContains, String.data_append]
    exact listContainsSub_append_right _ _ _ (by decide)
  · intro p
    simp only [askAccessText, strContains, String.data_append]
    exact listContainsSub_append_right _ _ _ (by decide)

/-- C3 witness: a history carrying only a phone number leads to the
ask-access follow-up with action Escalate. -/
theorem escalation_collector_four_cases_witness :
    truthyOpt (mergeCollected {} (detect_escalation_info
        [⟨"user", "call me at 555-123-4567"⟩])).phone = true ∧
    truthyOpt (mergeCollected {} (detect_escalation_info
        [⟨"user", "call me at 555-123-4567"⟩])).access = false ∧
    ((triage_with_image_bytes [⟨"user", "call me at 555-123-4567"⟩] true {}
        (Except.error "x") (Except.error "y")).action = Json.str "Escalate" ∧
      (triage_with_image_bytes [⟨"user", "call me at 555-123-4567"⟩] true {}
        (Except.error "x") (Except.error "y")).text =
        Json.str (askAccessText (some "555-123-4567"))) :=
  ⟨rfl, rfl, (escalation_collector_four_cases [⟨"user", "call me at 555-123-4567"⟩] {}
      (mergeCollected {} (detect_escalation_info [⟨"user", "call me at 555-123-4567"⟩]))
      (Except.error "x") (Except.error "y") rfl).2.2.2.1 rfl rfl⟩

lemma pyGet_obj (kvs : List (String × Json)) (key : String) (d : Json) :
    pyGet (Json.obj kvs) key d = Except.ok ((jLookup kvs key).getD d) := by
  unfold pyGet
  cases h : jLookup kvs key <;> simp [h]

lemma twib_normal (history : List Turn) (col : ContactInfo)
    (oT oV : Except String String)
    (h : detect_give_up (latestUserMsg history) = false) :
    triage_with_image_bytes history false col oT oV =
      (match oT with
        | Except.error e => twibErrorResponse e
        | Except.ok txt =>
          match triageBody txt with
          | Except.ok rd => { rd with escalation_mode := some false, contact_info := some {} }
          | Except.error e => twibErrorResponse e) := by
  simp [triage_with_image_bytes, h]

/-- C2 counterexample: with the single-message history "I smell gas" the
decision's action is whatever action the oracle reported; an oracle reply
with action QUESTION yields a QUESTION decision, not EMERGENCY — the
fire/gas/flooding classification lives in the oracle, not in the
deterministic orchestration code. -/
theorem gas_emergency_counterexample :
    (triage_with_image_bytes [⟨"user", "I smell gas"⟩] false {}
        (Except.ok "\x7b\"action\": \"QUESTION\", \"risk\": \"Green\"\x7d")
        (Except.error "unused")).action = Json.str "QUESTION" ∧
    Json.str "QUESTION" ≠ Json.str "EMERGENCY" :=
  ⟨rfl, by simp⟩

/-- C2 amended: the EMERGENCY override is deterministic only relative to the
oracle's classification: whenever the give-up detector has not fired and the
sanitized oracle output is a dictionary whose action field is EMERGENCY, the
decision has action EMERGENCY, the emergency flag and the emergency text
prefix, regardless of reported slot completeness (filled_slots and
missing_info are unconstrained), and its risk is exactly the oracle-reported
risk — Red whenever the oracle reports Red. -/
theorem oracle_emergency_overrides
    (history : List Turn) (collected : ContactInfo) (oV : Except String String)
    (txt : String) (kvs : List (String × Json))
    (hgu : detect_give_up (latestUserMsg history) = false)
    (hres : parse_json_response txt = Json.obj kvs)
    (hact : jLookup kvs "action" = some (Json.str "EMERGENCY")) :
    (triage_with_image_bytes history false collected (Except.ok txt) oV).action =
        Json.str "EMERGENCY" ∧
    (triage_with_image_bytes history false collected (Except.ok txt) oV).is_emergency = true ∧
    (triage_with_image_bytes history false collected (Except.ok txt) oV).risk =
      (jLookup kvs "risk").getD (Json.str "Yellow") := by
  rw [twib_normal history collected (Except.ok txt) oV hgu]
  simp only [triageBody, applyCreateTicket, applyConfirm, applyEmergency, hres, pyGet_obj,
    hact, Option.getD_some, exceptBind_ok, jEqStr, pure_bind]
  simp only [pure, Except.pure]
  exact ⟨rfl, rfl, rfl⟩

/-- C2 witness: the gas history with an oracle reply classifying EMERGENCY
and Red produces the EMERGENCY decision with Red risk. -/
theorem oracle_emergency_overrides_witness :
    detect_give_up (latestUserMsg [⟨"user", "I smell gas"⟩]) = false ∧
    parse_json_response "\x7b\"action\": \"EMERGENCY\", \"risk\": \"Red\"\x7d" =
      Json.obj [("action", Json.str "EMERGENCY"), ("risk", Json.str "Red")] ∧
    (triage_with_image_bytes [⟨"user", "I smell gas"⟩] false {}
        (Except.ok "\x7b\"action\": \"EMERGENCY\", \"risk\": \"Red\"\x7d")
        (Except.error "unused")).action = Json.str "EMERGENCY" ∧
    (triage_with_image_bytes [⟨"user", "I smell gas"⟩] false {}
        (Except.ok "\x7b\"action\": \"EMERGENCY\", \"risk\": \"Red\"\x7d")
        (Except.error "unused")).risk = Json.str "Red" :=
  ⟨rfl, rfl,
    (oracle_emergency_overrides [⟨"user", "I smell gas"⟩] {} (Except.error "unused")
      "\x7b\"action\": \"EMERGENCY\", \"risk\": \"Red\"\x7d"
      [("action", Json.str "EMERGENCY"), ("risk", Json.str "Red")] rfl rfl rfl).1,
    (oracle_emergency_overrides [⟨"user", "I smell gas"⟩] {} (Except.error "unused")
      "\x7b\"action\": \"EMERGENCY\", \"risk\": \"Red\"\x7d"
      [("action", Json.str "EMERGENCY"), ("risk", Json.str "Red")] rfl rfl rfl).2.2⟩

/-- C5 counterexample: when the oracle's reply is unparsable garbage the
sanitizer absorbs it into a `{"text": ...}` dictionary and the decision
lists NO missing slots and carries NO error diagnostic — not the claimed
all-7-missing safe default. -/
theorem oracle_failure_default_counterexample :
    (triage (Except.ok "total garbage")).missing_info = some (Json.arr []) ∧
    (triage (Except.ok "total garbage")).error = none ∧
    some (Json.arr []) ≠ some sevenMissing := by
  refine ⟨rfl, rfl, ?_⟩
  simp [sevenMissing]

/-- C5 amended: an oracle call that throws is absorbed into the safe default
QUESTION decision listing all seven slots as missing, with empty
filled_slots and the error attached only as a diagnostic (for both `triage`
and, outside give-up histories, `triage_with_image_bytes`); an oracle reply
that cannot be parsed as JSON is instead absorbed by the sanitizer into
`{"text": stripped}`, yielding a QUESTION decision whose missing-slot list
is empty, whose filled_slots is the empty dictionary, whose text is the
stripped reply, and which carries no error field — in neither case does the
failure propagate. -/
theorem oracle_failure_safe_defaults
    (e s : String) (hfail : json_loadsL (stripFences s.data) = none) :
    triage (Except.error e) = triageErrorResponse e ∧
    (triageErrorResponse e).action = Json.str "QUESTION" ∧
    (triageErrorResponse e).missing_info = some sevenMissing ∧
    (triageErrorResponse e).filled_slots = some (Json.obj []) ∧
    (triageErrorResponse e).error = some e ∧
    (∀ hist col oV, detect_give_up (latestUserMsg hist) = false →
      triage_with_image_bytes hist false col (Except.error e) oV = twibErrorResponse e) ∧
    (triage (Except.ok s)).action = Json.str "QUESTION" ∧
    (triage (Except.ok s)).missing_info = some (Json.arr []) ∧
    (triage (Except.ok s)).filled_slots = some (Json.obj []) ∧
    (triage (Except.ok s)).error = none ∧
    (triage (Except.ok s)).text = Json.str (String.mk (stripFences s.data)) := by
  have hres : parse_json_response s =
      Json.obj [("text", Json.str (String.mk (stripFences s.data)))] := by
    simp [parse_json_response, hfail]
  have hbody : triage (Except.ok s) =
      { text := Json.str (String.mk (stripFences s.data))
        risk := Json.str "Yellow"
        action := Json.str "QUESTION"
        category := Json.str "Other"
        missing_info := some (Json.arr [])
        filled_slots := some (Json.obj [])
        request_photo := some (Json.bool false) } := by
    simp [triage, triageBody, applyCreateTicket, applyConfirm, applyEmergency, hres,
      pyGet_obj, exceptBind_ok, pure_bind, jLookup, jEqStr]
    rfl
  refine ⟨rfl, rfl, rfl, rfl, rfl, ?_, ?_, ?_, ?_, ?_, ?_⟩
  · intro hist col oV h
    rw [twib_normal hist col (Except.error e) oV h]
  all_goals rw [hbody]

/-- C5 witness: concrete oracle exception "boom" and concrete garbage reply. -/
theorem oracle_failure_safe_defaults_witness :
    json_loadsL (stripFences "total garbage!".data) = none ∧
    triage (Except.error "boom") = triageErrorResponse "boom" ∧
    (triageErrorResponse "boom").error = some "boom" ∧
    (triage (Except.ok "total garbage!")).action = Json.str "QUESTION" ∧
    (triage (Except.ok "total garbage!")).error = none :=
  ⟨rfl, (oracle_failure_safe_defaults "boom" "total garbage!" rfl).1,
    (oracle_failure_safe_defaults "boom" "total garbage!" rfl).2.2.2.2.1,
    (oracle_failure_safe_defaults "boom" "total garbage!" rfl).2.2.2.2.2.2.1,
    (oracle_failure_safe_defaults "boom" "total garbage!" rfl).2.2.2.2.2.2.2.2.2.1⟩


lemma exceptBind_err {α β : Type} (e : String) (f : α → Except String β) :
    (Except.error e >>= f : Except String β) = Except.error e := rfl

lemma applyCreateTicket_action (rd : TriageResponse) (action filled_slots result : Json)
    (rd2 : TriageResponse)
    (h : applyCreateTicket rd action filled_slots result = Except.ok rd2) :
    rd2.action = rd.action := by
  unfold applyCreateTicket at h
  by_cases hc : jEqStr action "CREATE_TICKET" = true
  · rw [if_pos hc] at h
    cases hbt : buildTicketData filled_slots result with
    | error e => rw [hbt, exceptBind_err] at h; exact Except.noConfusion h
    | ok td =>
        rw [hbt, exceptBind_ok] at h
        injection h with h2
        subst h2
        rfl
  · rw [if_neg hc] at h
    injection h with h2
    subst h2
    rfl

lemma applyConfirm_action (rd : TriageResponse) (action filled_slots result : Json)
    (rd2 : TriageResponse)
    (h : applyConfirm rd action filled_slots result = Except.ok rd2) :
    rd2.action = rd.action := by
  unfold applyConfirm at h
  by_cases hc : jEqStr action "CONFIRM" = true
  · rw [if_pos hc] at h
    cases hbt : buildTicketData filled_slots result with
    | error e => rw [hbt, exceptBind_err] at h; exact Except.noConfusion h
    | ok td =>
        rw [hbt, exceptBind_ok] at h
        injection h with h2
        subst h2
        rfl
  · rw [if_neg hc] at h
    injection h with h2
    subst h2
    rfl

lemma applyEmergency_action (rd : TriageResponse) (action result : Json)
    (rd2 : TriageResponse) (h : applyEmergency rd action result = Except.ok rd2) :
    rd2.action = rd.action := by
  unfold applyEmergency at h
  by_cases hc : jEqStr action "EMERGENCY" = true
  · rw [if_pos hc] at h
    cases hpg : pyGet result "text"
        (Json.str "This is an emergency situation. Please evacuate if necessary and call emergency services.") with
    | error e => rw [hpg, exceptBind_err] at h; exact Except.noConfusion h
    | ok et =>
        rw [hpg, exceptBind_ok] at h
        injection h with h2
        subst h2
        rfl
  · rw [if_neg hc] at h
    injection h with h2
    subst h2
    rfl

lemma triagePost_action (rd0 : TriageResponse) (a fs res : Json) (rd : TriageResponse)
    (h : (do
        let rd1 ← applyCreateTicket rd0 a fs res
        let rd2 ← applyConfirm rd1 a fs res
        applyEmergency rd2 a res) = Except.ok rd) :
    rd.action = rd0.action := by
  cases h1 : applyCreateTicket rd0 a fs res with
  | error e => rw [h1, exceptBind_err] at h; exact Except.noConfusion h
  | ok rd1 =>
    rw [h1, exceptBind_ok] at h
    cases h2 : applyConfirm rd1 a fs res with
    | error e => rw [h2, exceptBind_err] at h; exact Except.noConfusion h
    | ok rd2 =>
      rw [h2, exceptBind_ok] at h
      rw [applyEmergency_action rd2 a res rd h, applyConfirm_action rd1 a fs res rd2 h2,
        applyCreateTicket_action rd0 a fs res rd1 h1]

lemma triageBody_ok_action (txt : String) (rd : TriageResponse)
    (hb : triageBody txt = Except.ok rd) :
    ∃ kvs, parse_json_response txt = Json.obj kvs ∧
      rd.action = (jLookup kvs "action").getD (Json.str "QUESTION") := by
  unfold triageBody at hb
  cases hres : parse_json_response txt with
  | obj kvs =>
      rw [hres] at hb
      simp only [pyGet_obj, exceptBind_ok] at hb
      exact ⟨kvs, rfl, triagePost_action _ _ _ _ rd hb⟩
  | null => rw [hres] at hb; simp [pyGet, Bind.bind, Except.bind] at hb
  | bool b => rw [hres] at hb; simp [pyGet, Bind.bind, Except.bind] at hb
  | num n => rw [hres] at hb; simp [pyGet, Bind.bind, Except.bind] at hb
  | str s2 => rw [hres] at hb; simp [pyGet, Bind.bind, Except.bind] at hb
  | arr xs => rw [hres] at hb; simp [pyGet, Bind.bind, Except.bind] at hb

/-- The oracle-output side condition of the amended C6: when the sanitized
oracle reply is a dictionary, its action entry (QUESTION when absent) is
one of the four specified action values. -/
def oracleActionValid (o : Except String String) : Bool :=
  match o with
  | Except.error _ => true
  | Except.ok txt =>
    match parse_json_response txt with
    | Json.obj kvs =>
      let a := (jLookup kvs "action").getD (Json.str "QUESTION")
      jEqStr a "QUESTION" || jEqStr a "CONFIRM" || jEqStr a "CREATE_TICKET" ||
        jEqStr a "EMERGENCY"
    | _ => true

/-- C6 counterexample: in escalation mode with nothing collected the
returned action is the string "Escalate", which is none of the four claimed
enumeration values. -/
theorem action_enumeration_counterexample :
    (triage_with_image_bytes [] true {} (Except.error "x") (Except.error "y")).action =
      Json.str "Escalate" ∧
    ("Escalate" ≠ "QUESTION" ∧ "Escalate" ≠ "CONFIRM" ∧
      "Escalate" ≠ "CREATE_TICKET" ∧ "Escalate" ≠ "EMERGENCY") :=
  ⟨rfl, by decide⟩

/-- C6 amended: every decision's action lies in the five-element set
{QUESTION, CONFIRM, CREATE_TICKET, EMERGENCY, Escalate} — the escalation
collector's follow-up turns carry the extra action "Escalate" — provided
the oracle's sanitized action entry, when the reply is a dictionary, is one
of the four specification values (the normal branch passes the oracle's
action string through verbatim and the error fallback is QUESTION). -/
theorem action_in_enumeration
    (hist : List Turn) (em : Bool) (col : ContactInfo) (oT oV : Except String String)
    (h : oracleActionValid oT = true) :
    (triage_with_image_bytes hist em col oT oV).action = Json.str "QUESTION" ∨
    (triage_with_image_bytes hist em col oT oV).action = Json.str "CONFIRM" ∨
    (triage_with_image_bytes hist em col oT oV).action = Json.str "CREATE_TICKET" ∨
    (triage_with_image_bytes hist em col oT oV).action = Json.str "EMERGENCY" ∨
    (triage_with_image_bytes hist em col oT oV).action = Json.str "Escalate" := by
  by_cases hem : (em || detect_give_up (latestUserMsg hist)) = true
  · have he : triage_with_image_bytes hist em col oT oV = escalationStep hist col oV := by
      simp [triage_with_image_bytes, hem]
    rw [he]
    rcases escalationStep_action_cases hist col oV with h1 | h1
    · exact Or.inr (Or.inr (Or.inl h1))
    · exact Or.inr (Or.inr (Or.inr (Or.inr h1)))
  · simp only [Bool.or_eq_true, not_or, Bool.not_eq_true] at hem
    obtain ⟨hemf, hgu⟩ := hem
    subst hemf
    rcases oT with e | txt
    · refine Or.inl ?_
      rw [twib_normal hist col (Except.error e) oV hgu]
      rfl
    · cases hb : triageBody txt with
      | error e2 =>
          refine Or.inl ?_
          rw [twib_normal hist col (Except.ok txt) oV hgu]
          simp [hb, twibErrorResponse, triageErrorResponse]
      | ok rd =>
          obtain ⟨kvs, hres, hact⟩ := triageBody_ok_action txt rd hb
          have hA : (triage_with_image_bytes hist false col (Except.ok txt) oV).action =
              rd.action := by
            rw [twib_normal hist col (Except.ok txt) oV hgu]
            simp [hb]
          rw [hA, hact]
          simp only [oracleActionValid, hres] at h
          cases hv : (jLookup kvs "action").getD (Json.str "QUESTION") <;>
            rw [hv] at h <;> simp [jEqStr] at h
          rename_i t
          rcases h with ((h | h) | h) | h
          · exact Or.inl (by rw [h])
          · exact Or.inr (Or.inl (by rw [h]))
          · exact Or.inr (Or.inr (Or.inl (by rw [h])))
          · exact Or.inr (Or.inr (Or.inr (Or.inl (by rw [h]))))

/-- C6 witness: a concrete escalation-mode call returns action "Escalate",
inside the five-element enumeration. -/
theorem action_in_enumeration_witness :
    oracleActionValid (Except.error "x") = true ∧
    ((triage_with_image_bytes [] true {} (Except.error "x") (Except.error "y")).action =
        Json.str "QUESTION" ∨
      (triage_with_image_bytes [] true {} (Except.error "x") (Except.error "y")).action =
        Json.str "CONFIRM" ∨
      (triage_with_image_bytes [] true {} (Except.error "x") (Except.error "y")).action =
        Json.str "CREATE_TICKET" ∨
      (triage_with_image_bytes [] true {} (Except.error "x") (Except.error "y")).action =
        Json.str "EMERGENCY" ∨
      (triage_with_image_bytes [] true {} (Except.error "x") (Except.error "y")).action =
        Json.str "Escalate") :=
  ⟨rfl, action_in_enumeration [] true {} (Except.error "x") (Except.error "y") rfl⟩

/-- C7: the Output Sanitizer never raises (both sanitizers are total
functions of the input string) and satisfies the stated round-trip: the
fenced array example parses to [{"a":1}]; any input whose content fails to
parse as JSON yields [] under the array contract and the
{"text": fence-stripped input} dictionary under the object contract. -/
theorem sanitizer_round_trip (s : String)
    (hfailArr : json_loadsL (extractArraySpan (stripFences s.data)) = none)
    (hfailObj : json_loadsL (stripFences s.data) = none) :
    parse_json_array "```json\n[\x7b\"a\":1\x7d]\n```" = [Json.obj [("a", Json.num 1)]] ∧
    parse_json_array s = [] ∧
    parse_json_response s = Json.obj [("text", Json.str (String.mk (stripFences s.data)))] := by
  refine ⟨rfl, ?_, ?_⟩
  · simp only [parse_json_array, hfailArr]
  · simp only [parse_json_response, hfailObj]

/-- C7 witness: concrete unparsable garbage. -/
theorem sanitizer_round_trip_witness :
    json_loadsL (extractArraySpan (stripFences "?? not json ??".data)) = none ∧
    json_loadsL (stripFences "?? not json ??".data) = none ∧
    parse_json_array "?? not json ??" = [] ∧
    parse_json_response "?? not json ??" = Json.obj [("text", Json.str "?? not json ??")] :=
  ⟨rfl, rfl, (sanitizer_round_trip "?? not json ??" rfl rfl).2.1,
    (sanitizer_round_trip "?? not json ??" rfl rfl).2.2⟩

/-- An item whose `is_new` entry is the boolean true. -/
def isNewTrue (i : Json) : Bool :=
  match i with
  | Json.obj kvs =>
    match jLookup kvs "is_new" with
    | some (Json.bool true) => true
    | _ => false
  | _ => false

/-- The `estimated_cost` entry of an item as an integer, 0 when absent. -/
def itemCost (i : Json) : Int :=
  match i with
  | Json.obj kvs =>
    match (jLookup kvs "estimated_cost").getD (Json.num 0) with
    | Json.num n => n
    | Json.bool b => if b then 1 else 0
    | _ => 0
  | _ => 0

/-- Side condition for the move-out aggregation: each item is a dictionary
whose optional `is_new` entry is a boolean, and each new-damage item
carries `item` and `condition` entries and a numeric (or absent)
`estimated_cost` — exactly the shape the move-out oracle contract
prescribes. -/
def itemWellFormed (i : Json) : Bool :=
  match i with
  | Json.obj kvs =>
    (match jLookup kvs "is_new" with
      | none => true
      | some (Json.bool _) => true
      | some _ => false) &&
    (!(isNewTrue i) ||
      ((jLookup kvs "item").isSome && (jLookup kvs "condition").isSome &&
        (match (jLookup kvs "estimated_cost").getD (Json.num 0) with
          | Json.num _ => true
          | Json.bool _ => true
          | _ => false)))
  | _ => false

lemma isNew_get (i : Json) (hi : itemWellFormed i = true) :
    ∃ v, pyGet i "is_new" Json.null = Except.ok v ∧ jTruthy v = isNewTrue i := by
  cases i with
  | obj kvs =>
      refine ⟨(jLookup kvs "is_new").getD Json.null, pyGet_obj kvs "is_new" Json.null, ?_⟩
      simp only [itemWellFormed, Bool.and_eq_true] at hi
      cases hn : jLookup kvs "is_new" with
      | none => simp [isNewTrue, hn, jTruthy]
      | some v =>
          rw [hn] at hi
          cases v with
          | bool b => cases b <;> simp [isNewTrue, hn, jTruthy]
          | null => simp at hi
          | num n => simp at hi
          | str t => simp at hi
          | arr xs => simp at hi
          | obj o => simp at hi
  | null => simp [itemWellFormed] at hi
  | bool b => simp [itemWellFormed] at hi
  | num n => simp [itemWellFormed] at hi
  | str t => simp [itemWellFormed] at hi
  | arr xs => simp [itemWellFormed] at hi

lemma moveOutNewDamages_eq (items : List Json)
    (h : ∀ i ∈ items, itemWellFormed i = true) :
    moveOutNewDamages items = Except.ok (items.filter isNewTrue) := by
  induction items with
  | nil => rfl
  | cons i rest ih =>
      have hi := h i (List.mem_cons_self i rest)
      have hr := ih (fun j hj => h j (List.mem_cons_of_mem i hj))
      obtain ⟨v, hget, htru⟩ := isNew_get i hi
      unfold moveOutNewDamages
      rw [hget, exceptBind_ok, hr, exceptBind_ok]
      cases hni : isNewTrue i <;>
        rw [hni] at htru <;>
        simp [List.filter_cons, htru, hni, pure, Except.pure]

lemma cost_get (i : Json) (hi : itemWellFormed i = true) (hnew : isNewTrue i = true) :
    ∃ v, pyGet i "estimated_cost" (Json.num 0) = Except.ok v ∧
      jNum v = Except.ok (itemCost i) := by
  cases i with
  | obj kvs =>
      refine ⟨(jLookup kvs "estimated_cost").getD (Json.num 0),
        pyGet_obj kvs "estimated_cost" (Json.num 0), ?_⟩
      simp only [itemWellFormed, Bool.and_eq_true, Bool.or_eq_true, Bool.not_eq_true',
        hnew] at hi
      rcases hi with ⟨-, hcost⟩
      rcases hcost with hfalse | ⟨-, hnum⟩
      · exact absurd hfalse (by simp)
      · cases hv : (jLookup kvs "estimated_cost").getD (Json.num 0) with
        | num n => simp [jNum, itemCost, hv]
        | bool b => simp [jNum, itemCost, hv]
        | null => rw [hv] at hnum; simp at hnum
        | str t => rw [hv] at hnum; simp at hnum
        | arr xs => rw [hv] at hnum; simp at hnum
        | obj o => rw [hv] at hnum; simp at hnum
  | null => simp [itemWellFormed] at hi
  | bool b => simp [itemWellFormed] at hi
  | num n => simp [itemWellFormed] at hi
  | str t => simp [itemWellFormed] at hi
  | arr xs => simp [itemWellFormed] at hi

lemma moveOutTotalCost_eq (nd : List Json)
    (h : ∀ i ∈ nd, itemWellFormed i = true ∧ isNewTrue i = true) :
    moveOutTotalCost nd = Except.ok ((nd.map itemCost).sum) := by
  induction nd with
  | nil => rfl
  | cons i rest ih =>
      obtain ⟨hi, hnew⟩ := h i (List.mem_cons_self i rest)
      have hr := ih (fun j hj => h j (List.mem_cons_of_mem i hj))
      obtain ⟨v, hget, hnum⟩ := cost_get i hi hnew
      unfold moveOutTotalCost
      rw [hget, exceptBind_ok, hnum, exceptBind_ok, hr, exceptBind_ok]
      simp [pure, Except.pure]

lemma fmtDamage_ok (i : Json) (hi : itemWellFormed i = true)
    (hnew : isNewTrue i = true) : ∃ s, fmtDamage i = Except.ok s := by
  cases i with
  | obj kvs =>
      simp only [itemWellFormed, Bool.and_eq_true, Bool.or_eq_true, Bool.not_eq_true',
        hnew] at hi
      rcases hi with ⟨-, hcost⟩
      rcases hcost with hfalse | ⟨⟨hitem, hcond⟩, -⟩
      · exact absurd hfalse (by simp)
      · obtain ⟨vi, hvi⟩ := Option.isSome_iff_exists.mp hitem
        obtain ⟨vc, hvc⟩ := Option.isSome_iff_exists.mp hcond
        refine ⟨pyStr vi ++ ": " ++ pyStr vc ++ " ($" ++
          pyStr ((jLookup kvs "estimated_cost").getD (Json.num 0)) ++ ")", ?_⟩
        unfold fmtDamage
        simp only [pyIndex, hvi, hvc, exceptBind_ok, pyGet_obj]
        rfl
  | null => simp [itemWellFormed] at hi
  | bool b => simp [itemWellFormed] at hi
  | num n => simp [itemWellFormed] at hi
  | str t => simp [itemWellFormed] at hi
  | arr xs => simp [itemWellFormed] at hi

lemma fmtDamages_ok (nd : List Json)
    (h : ∀ i ∈ nd, itemWellFormed i = true ∧ isNewTrue i = true) :
    ∃ l, fmtDamages nd = Except.ok l ∧ l.length = nd.length := by
  induction nd with
  | nil => exact ⟨[], rfl, rfl⟩
  | cons i rest ih =>
      obtain ⟨hi, hnew⟩ := h i (List.mem_cons_self i rest)
      obtain ⟨l, hl, hlen⟩ := ih (fun j hj => h j (List.mem_cons_of_mem i hj))
      obtain ⟨s, hs⟩ := fmtDamage_ok i hi hnew
      refine ⟨s :: l, ?_, by simp [hlen]⟩
      unfold fmtDamages
      rw [hs, exceptBind_ok, hl, exceptBind_ok]
      rfl

/-- C8: for every oracle-returned item list of the shape the move-out
contract prescribes, the comparator deterministically computes the
new-damage subset as exactly the items whose `is_new` is true and the total
cost as the sum of `estimated_cost` over exactly those items, leaves the
item list itself unchanged (no reclassification), and — being a pure
function — yields the same report when re-run on the same list. -/
theorem move_out_aggregation (items : List Json)
    (h : ∀ i ∈ items, itemWellFormed i = true) :
    moveOutNewDamages items = Except.ok (items.filter isNewTrue) ∧
    (∃ rep, audit_move_out_aggregate items = Except.ok rep ∧
      rep.items = items ∧
      rep.new_damages.length = (items.filter isNewTrue).length ∧
      rep.total_estimated_cost = ((items.filter isNewTrue).map itemCost).sum) ∧
    audit_move_out_aggregate items = audit_move_out_aggregate items := by
  have hfilterWf : ∀ i ∈ items.filter isNewTrue, itemWellFormed i = true ∧ isNewTrue i = true := by
    intro i hmem
    rcases List.mem_filter.mp hmem with ⟨hmem2, hnew⟩
    exact ⟨h i hmem2, hnew⟩
  have hnd := moveOutNewDamages_eq items h
  have htc := moveOutTotalCost_eq (items.filter isNewTrue) hfilterWf
  obtain ⟨l, hl, hlen⟩ := fmtDamages_ok (items.filter isNewTrue) hfilterWf
  refine ⟨hnd, ?_, rfl⟩
  unfold audit_move_out_aggregate
  rw [hnd, exceptBind_ok, htc, exceptBind_ok, hl, exceptBind_ok]
  exact ⟨_, rfl, rfl, hlen, rfl⟩

/-- C8 witness: the one-item scenario with is_new true and estimated cost
150 yields one new damage and total cost 150. -/
theorem move_out_aggregation_witness :
    (∀ i ∈ [Json.obj [("item", Json.str "Wall"), ("condition", Json.str "hole"),
        ("is_new", Json.bool true), ("estimated_cost", Json.num 150)]],
      itemWellFormed i = true) ∧
    moveOutNewDamages [Json.obj [("item", Json.str "Wall"), ("condition", Json.str "hole"),
        ("is_new", Json.bool true), ("estimated_cost", Json.num 150)]] =
      Except.ok ([Json.obj [("item", Json.str "Wall"), ("condition", Json.str "hole"),
        ("is_new", Json.bool true), ("estimated_cost", Json.num 150)]].filter isNewTrue) ∧
    ([Json.obj [("item", Json.str "Wall"), ("condition", Json.str "hole"),
        ("is_new", Json.bool true), ("estimated_cost", Json.num 150)]].filter
          isNewTrue).length = 1 ∧
    (([Json.obj [("item", Json.str "Wall"), ("condition", Json.str "hole"),
        ("is_new", Json.bool true), ("estimated_cost", Json.num 150)]].filter
          isNewTrue).map itemCost).sum = 150 :=
  ⟨by decide,
    (move_out_aggregation [Json.obj [("item", Json.str "Wall"), ("condition", Json.str "hole"),
      ("is_new", Json.bool true), ("estimated_cost", Json.num 150)]] (by decide)).1,
    rfl, rfl⟩

/-- C9: a move-out request whose unit has no non-empty baseline (no row, a
null summary column, or an empty summary) is answered with the distinct
404 "no move-in baseline / run move-in first" error — not a crash, not a
silent comparison — and the answer is independent of the oracle, i.e. it is
produced before any oracle call. -/
theorem missing_baseline_reported (ct unit_id : String)
    (row : Option (Option String)) (o : Except String String)
    (hct : ALLOWED_VIDEO_TYPES.contains ct = true)
    (hnb : truthyOpt (row.bind id) = false) :
    audit_move_out_endpoint ct unit_id row o =
      EndpointResult.httpError 404
        ("No move-in baseline found for unit \x27" ++ unit_id ++
          "\x27. Please complete a move-in audit first.") ∧
    (∀ o2, audit_move_out_endpoint ct unit_id row o =
        audit_move_out_endpoint ct unit_id row o2) := by
  have hmem : ct ∈ ALLOWED_VIDEO_TYPES := by simpa using hct
  have hnb2 : truthyOpt (row.bind fun a => a) = false := hnb
  constructor
  · simp [audit_move_out_endpoint, hmem, hnb2]
  · intro o2
    simp [audit_move_out_endpoint, hmem, hnb2]

/-- C9 witness: unit "101" with no baseline row gets the 404 regardless of a
failing oracle. -/
theorem missing_baseline_reported_witness :
    ALLOWED_VIDEO_TYPES.contains "video/mp4" = true ∧
    truthyOpt ((none : Option (Option String)).bind id) = false ∧
    audit_move_out_endpoint "video/mp4" "101" none (Except.error "oracle down") =
      EndpointResult.httpError 404
        "No move-in baseline found for unit \x27101\x27. Please complete a move-in audit first." :=
  ⟨rfl, rfl,
    (missing_baseline_reported "video/mp4" "101" none (Except.error "oracle down")
      rfl rfl).1⟩

/-- C10: the array-contract sanitizer totally returns a list: it returns the
parsed list exactly when the extracted span parses to a JSON array, and []
in every other case — in particular whenever the input parses successfully
to a non-array value such as an object or a bare number. -/
theorem parse_json_array_characterization (s : String) :
    (parse_json_array s = [] ∨
      ∃ xs, json_loadsL (extractArraySpan (stripFences s.data)) = some (Json.arr xs) ∧
        parse_json_array s = xs) ∧
    (∀ v, json_loadsL (extractArraySpan (stripFences s.data)) = some v →
      (∀ xs, v ≠ Json.arr xs) → parse_json_array s = []) := by
  constructor
  · cases hj : json_loadsL (extractArraySpan (stripFences s.data)) with
    | none => exact Or.inl (by simp [parse_json_array, hj])
    | some v =>
        cases v with
        | arr xs => exact Or.inr ⟨xs, rfl, by simp [parse_json_array, hj]⟩
        | null => exact Or.inl (by simp [parse_json_array, hj])
        | bool b => exact Or.inl (by simp [parse_json_array, hj])
        | num n => exact Or.inl (by simp [parse_json_array, hj])
        | str t => exact Or.inl (by simp [parse_json_array, hj])
        | obj kvs => exact Or.inl (by simp [parse_json_array, hj])
  · intro v hv hne
    cases v with
    | arr xs => exact absurd rfl (hne xs)
    | null => simp [parse_json_array, hv]
    | bool b => simp [parse_json_array, hv]
    | num n => simp [parse_json_array, hv]
    | str t => simp [parse_json_array, hv]
    | obj kvs => simp [parse_json_array, hv]

/-- C10 witness: a JSON object input parses successfully but is not an
array, so the sanitizer returns []. -/
theorem parse_json_array_characterization_witness :
    json_loadsL (extractArraySpan (stripFences "\x7b\"a\":1\x7d".data)) =
      some (Json.obj [("a", Json.num 1)]) ∧
    parse_json_array "\x7b\"a\":1\x7d" = [] :=
  ⟨rfl, (parse_json_array_characterization "\x7b\"a\":1\x7d").2
    (Json.obj [("a", Json.num 1)]) rfl (fun xs h => Json.noConfusion h)⟩
